import Mathlib

/-!
# swarmd `agent` command: bootstrap sequence

A shallow embedding of `cmd/swarmd/agent.go`: the `RunE` closure of `agentCmd`
and the flag registration done by `init`.

`RunE` is a straight-line sequence of calls into external collaborators
(flag set, identifier generator, manager pool, certificate authority client,
engine client, executor, agent).  Each collaborator is a field of `World`;
the run is a function of the flag set and the world that returns how the run
ended together with the ordered list of collaborator calls it made.
-/

namespace Swarmd

/-- A Go `error` value, carried by its message; the nil error is `none` of `Option Error`. -/
abbrev Error := String

/-! ## Flag set (the part of `pflag.FlagSet` that the command uses) -/

/-- The value held by a registered flag, tagged by the flag's type. -/
inductive FlagValue where
  | string (v : String)
  | stringSlice (v : List String)
  deriving DecidableEq, Repr

/-- The type name that `Value.Type()` reports for a flag value. -/
def FlagValue.Type : FlagValue → String
  | .string _ => "string"
  | .stringSlice _ => "stringSlice"

/-- One registered flag: name, one-letter shorthand (empty when none), current value, usage. -/
structure Flag where
  name : String
  shorthand : String
  value : FlagValue
  usage : String
  deriving DecidableEq, Repr

/-- A flag set, in registration order. -/
abbrev FlagSet := List Flag

/-- Find a flag by name: `FlagSet.Lookup`. -/
def Lookup (fs : FlagSet) (name : String) : Option Flag :=
  fs.find? (fun f => f.name == name)

/-- Read a string flag: `FlagSet.GetString`.  An unregistered name and a flag of another
type are both errors. -/
def GetString (fs : FlagSet) (name : String) : Except Error String :=
  match Lookup fs name with
  | none => .error ("flag accessed but not defined: " ++ name)
  | some f =>
    match f.value with
    | .string v => .ok v
    | other => .error ("trying to get string value of flag of type " ++ other.Type)

/-- Read a string-slice flag: `FlagSet.GetStringSlice`.  The slice is read back from the
flag's string form, the entries joined by commas between brackets: a held slice whose only
entry is the empty string has the same string form as the empty slice and reads as the empty
slice.  Entries are taken to hold no comma, quote or bracket, so that every other slice
reads back as it is held. -/
def GetStringSlice (fs : FlagSet) (name : String) : Except Error (List String) :=
  match Lookup fs name with
  | none => .error ("flag accessed but not defined: " ++ name)
  | some f =>
    match f.value with
    | .stringSlice v => .ok (if v = [""] then [] else v)
    | other => .error ("trying to get stringSlice value of flag of type " ++ other.Type)

/-- Register a string flag without shorthand: `FlagSet.String(name, value, usage)` (the
name `String` is taken by the type). -/
def FlagSet.StringFlag (fs : FlagSet) (name value usage : String) : FlagSet :=
  fs ++ [Flag.mk name "" (.string value) usage]

/-- Register a string-slice flag with a shorthand:
`FlagSet.StringSliceP(name, shorthand, value, usage)`. -/
def FlagSet.StringSliceP (fs : FlagSet) (name shorthand : String) (value : List String)
    (usage : String) : FlagSet :=
  fs ++ [Flag.mk name shorthand (.stringSlice value) usage]

/-- The flags that `init` registers on `agentCmd`, starting from an empty flag set
(agent.go lines 103-108). -/
def init : FlagSet :=
  let fs : FlagSet := []
  let fs := fs.StringFlag "id" "" "Specifies the identity of the node"
  let fs := fs.StringFlag "engine-addr" "unix:///var/run/docker.sock"
    "Address of engine instance of agent."
  let fs := fs.StringFlag "hostname" "" "Override reported agent hostname"
  fs.StringSliceP "manager" "m" ["localhost:4242"] "Specify one or more manager addresses"

/-- The flag names that `RunE` reads, in the order it reads them (lines 23-57). -/
def flagsRead : List String :=
  ["hostname", "id", "manager", "engine-addr", "state-dir", "token"]

/-! ## External collaborators -/

/-- Handle of a manager address pool (`agent.Managers`). -/
structure Managers where
  handle : Nat
  deriving DecidableEq, Repr

/-- Handle of an agent security configuration (`*ca.AgentSecurityConfig`). -/
structure SecurityConfig where
  handle : Nat
  deriving DecidableEq, Repr

/-- Handle of an engine API client (`*engineapi.Client`). -/
structure Client where
  handle : Nat
  deriving DecidableEq, Repr

/-- Handle of an executor (`exec.Executor`). -/
structure Executor where
  handle : Nat
  deriving DecidableEq, Repr

/-- Handle of a constructed agent (`*agent.Agent`). -/
structure Agent where
  handle : Nat
  deriving DecidableEq, Repr

/-- The fields of `agent.Config` that `RunE` sets (lines 78-84). -/
structure Config where
  ID : String
  Hostname : String
  Managers : Managers
  Executor : Executor
  SecurityConfig : SecurityConfig
  deriving DecidableEq, Repr

/-- What the packages called by `RunE` answer.  Every collaborator is called at most once
per run, so one answer per argument tuple determines the run. -/
structure World where
  /-- The identifier `identity.NewID()` returns. -/
  NewID : String
  /-- The pool `agent.NewManagers(addrs...)` returns. -/
  NewManagers : List String → Managers
  /-- The result of `managers.Select()`. -/
  Select : Managers → Except Error String
  /-- The result of `ca.LoadOrCreateAgentSecurityConfig(stateDir, token, managerAddr)`. -/
  LoadOrCreateAgentSecurityConfig : String → String → String → Except Error SecurityConfig
  /-- The result of `engineapi.NewClient(host, version, nil, nil)`. -/
  NewClient : String → String → Except Error Client
  /-- The executor `container.NewExecutor(client)` returns. -/
  NewExecutor : Client → Executor
  /-- The result of `agent.New(config)`. -/
  New : Config → Except Error Agent
  /-- The error `ag.Start(ctx)` returns, `none` for nil. -/
  Start : Agent → Option Error
  /-- The error `ag.Err()` returns, `none` for nil. -/
  Err : Agent → Option Error

/-- One call made by a run, with its arguments. -/
inductive Event where
  | Debugf (format : String) (args : List String)
  | NewID
  | NewManagers (addrs : List String)
  | Select (managers : Managers)
  | LoadOrCreateAgentSecurityConfig (stateDir token managerAddr : String)
  | NewClient (host version : String)
  | NewExecutor (client : Client)
  | New (config : Config)
  | Fatalln (err : Error)
  | WithCancel
  | Start (ag : Agent)
  | Err (ag : Agent)
  | cancel
  deriving DecidableEq, Repr

/-- How a run ends: `RunE` returns an error value (`none` for nil) to its caller, or the
process is terminated with an exit status before `RunE` returns. -/
inductive Outcome where
  | returned (err : Option Error)
  | exit (status : Nat)
  deriving DecidableEq, Repr

/-- A run: how it ended and the calls it made, in order. -/
structure Run where
  outcome : Outcome
  trace : List Event
  deriving DecidableEq, Repr

/-! ## The command body -/

/-- Identity resolution, lines 33-36: an empty id is replaced by a generated one (after a
debug log line); any other id is kept.  Returns the id and the calls made. -/
def resolveID (w : World) (id : String) : String × List Event :=
  if id == "" then
    (w.NewID, [.Debugf "agent: generated random identifier" [], .NewID])
  else
    (id, [])

/-- The body of `agentCmd.RunE`, lines 21-99.  `logrus` `Fatalln` writes the log entry and
then exits the process with status 1, so the failure branch of `agent.New` ends the run
without returning and without running the deferred `cancel`. -/
def RunE (w : World) (fs : FlagSet) : Run :=
  match GetString fs "hostname" with
  | .error err => ⟨.returned (some err), []⟩
  | .ok hostname =>
  match GetString fs "id" with
  | .error err => ⟨.returned (some err), []⟩
  | .ok id0 =>
  let id := (resolveID w id0).1
  let t := (resolveID w id0).2
  match GetStringSlice fs "manager" with
  | .error err => ⟨.returned (some err), t⟩
  | .ok managerAddrs =>
  match GetString fs "engine-addr" with
  | .error err => ⟨.returned (some err), t⟩
  | .ok engineAddr =>
  let t := t ++ [.Debugf "managers: %v" managerAddrs]
  match GetString fs "state-dir" with
  | .error err => ⟨.returned (some err), t⟩
  | .ok stateDir =>
  match GetString fs "token" with
  | .error err => ⟨.returned (some err), t⟩
  | .ok token =>
  let managers := w.NewManagers managerAddrs
  let t := t ++ [.NewManagers managerAddrs, .Select managers]
  match w.Select managers with
  | .error err => ⟨.returned (some err), t⟩
  | .ok managerAddr =>
  let t := t ++ [.LoadOrCreateAgentSecurityConfig stateDir token managerAddr]
  match w.LoadOrCreateAgentSecurityConfig stateDir token managerAddr with
  | .error err => ⟨.returned (some err), t⟩
  | .ok securityConfig =>
  let t := t ++ [.NewClient engineAddr ""]
  match w.NewClient engineAddr "" with
  | .error err => ⟨.returned (some err), t⟩
  | .ok client =>
  let executor := w.NewExecutor client
  let config : Config :=
    { ID := id
      Hostname := hostname
      Managers := managers
      Executor := executor
      SecurityConfig := securityConfig }
  let t := t ++ [.NewExecutor client, .New config]
  match w.New config with
  | .error err => ⟨.exit 1, t ++ [.Fatalln err]⟩
  | .ok ag =>
  let t := t ++ [.WithCancel, .Start ag]
  match w.Start ag with
  | some err => ⟨.returned (some err), t ++ [.cancel]⟩
  | none => ⟨.returned (w.Err ag), t ++ [.Err ag, .cancel]⟩

/-! ## Concrete inputs -/

/-- The flag set a root command supplies on top of `init` in the examples: the four flags of
`init` followed by `state-dir` and `token`, with the given values for `id` and
`hostname`. -/
def exampleFlags (id hostname : String) : FlagSet :=
  [ Flag.mk "id" "" (.string id) "Specifies the identity of the node",
    Flag.mk "engine-addr" "" (.string "unix:///var/run/docker.sock")
      "Address of engine instance of agent.",
    Flag.mk "hostname" "" (.string hostname) "Override reported agent hostname",
    Flag.mk "manager" "m" (.stringSlice ["10.0.0.1:4242"]) "Specify one or more manager addresses",
    Flag.mk "state-dir" "d" (.string "/tmp/empty") "State directory",
    Flag.mk "token" "" (.string "validtoken") "Token" ]

/-- A world in which every collaborator succeeds and the agent later reports no error. -/
def okWorld : World where
  NewID := "generated-id"
  NewManagers := fun addrs => ⟨addrs.length⟩
  Select := fun m => if m.handle = 0 then .error "no managers" else .ok "10.0.0.1:4242"
  LoadOrCreateAgentSecurityConfig := fun _ _ _ => .ok ⟨7⟩
  NewClient := fun _ _ => .ok ⟨3⟩
  NewExecutor := fun c => ⟨c.handle⟩
  New := fun _ => .ok ⟨1⟩
  Start := fun _ => none
  Err := fun _ => none

/-- The world `okWorld` except that credential provisioning fails. -/
def provisionFailsWorld : World :=
  { okWorld with
    LoadOrCreateAgentSecurityConfig := fun _ _ _ => .error "x509: certificate request rejected" }

/-- The world `okWorld` except that `agent.New` fails. -/
def newFailsWorld : World :=
  { okWorld with New := fun _ => .error "config: invalid" }

/-- The world `okWorld` except that the agent fails to start; the agent would report a
different terminal error if asked. -/
def startFailsWorld : World :=
  { okWorld with Start := fun _ => some "agent: already started", Err := fun _ => some "other" }

/-- The flags of `exampleFlags` with an empty manager list. -/
def noManagerFlags : FlagSet :=
  [ Flag.mk "id" "" (.string "node-7") "Specifies the identity of the node",
    Flag.mk "engine-addr" "" (.string "unix:///var/run/docker.sock")
      "Address of engine instance of agent.",
    Flag.mk "hostname" "" (.string "worker-a") "Override reported agent hostname",
    Flag.mk "manager" "m" (.stringSlice []) "Specify one or more manager addresses",
    Flag.mk "state-dir" "d" (.string "/tmp/empty") "State directory",
    Flag.mk "token" "" (.string "validtoken") "Token" ]

/-! ## Vocabulary of the statements -/

/-- The call is a credential provisioning call. -/
def Event.isProvision : Event → Bool
  | .LoadOrCreateAgentSecurityConfig _ _ _ => true
  | _ => false

/-- The call is an agent construction call. -/
def Event.isNew : Event → Bool
  | .New _ => true
  | _ => false

/-- The error with which `RunE` would see the read of flag `name` fail: `manager` is read
with `GetStringSlice`, the other flags with `GetString`. -/
def readError (fs : FlagSet) (name : String) : Option Error :=
  if name = "manager" then
    match GetStringSlice fs name with
    | .error err => some err
    | .ok _ => none
  else
    match GetString fs name with
    | .error err => some err
    | .ok _ => none

/-- The calls of a run up to and including `managers.Select`. -/
def traceToSelect (w : World) (id : String) (managerAddrs : List String) : List Event :=
  (resolveID w id).2 ++
    [.Debugf "managers: %v" managerAddrs, .NewManagers managerAddrs,
     .Select (w.NewManagers managerAddrs)]

/-! ## Identity resolution -/

theorem resolveID_fst (w : World) (id : String) :
    (resolveID w id).1 = if id = "" then w.NewID else id := by
  unfold resolveID
  by_cases h : id = "" <;> simp [h]

theorem mem_resolveID_trace (w : World) (id : String) (ev : Event) :
    ev ∈ (resolveID w id).2 ↔
      id = "" ∧ (ev = .Debugf "agent: generated random identifier" [] ∨ ev = .NewID) := by
  unfold resolveID
  by_cases h : id = "" <;> simp [h]

theorem countP_resolveID_trace (w : World) (id : String) (p : Event → Bool)
    (h1 : p (.Debugf "agent: generated random identifier" []) = false)
    (h2 : p .NewID = false) :
    List.countP p (resolveID w id).2 = 0 := by
  unfold resolveID
  by_cases h : id = "" <;> simp [h, h1, h2]

/-! ## The paths through `RunE` -/

/-- Every run follows one of twelve paths, one per return site of `RunE` plus the fatal
exit; each path fixes the outcome and the trace. -/
theorem RunE_cases (w : World) (fs : FlagSet) :
    (∃ e, GetString fs "hostname" = .error e ∧ RunE w fs = ⟨.returned (some e), []⟩) ∨
    ∃ hostname, GetString fs "hostname" = .ok hostname ∧
    ((∃ e, GetString fs "id" = .error e ∧ RunE w fs = ⟨.returned (some e), []⟩) ∨
    ∃ id, GetString fs "id" = .ok id ∧
    ((∃ e, GetStringSlice fs "manager" = .error e ∧
        RunE w fs = ⟨.returned (some e), (resolveID w id).2⟩) ∨
    ∃ managerAddrs, GetStringSlice fs "manager" = .ok managerAddrs ∧
    ((∃ e, GetString fs "engine-addr" = .error e ∧
        RunE w fs = ⟨.returned (some e), (resolveID w id).2⟩) ∨
    ∃ engineAddr, GetString fs "engine-addr" = .ok engineAddr ∧
    ((∃ e, GetString fs "state-dir" = .error e ∧
        RunE w fs = ⟨.returned (some e),
          (resolveID w id).2 ++ [.Debugf "managers: %v" managerAddrs]⟩) ∨
    ∃ stateDir, GetString fs "state-dir" = .ok stateDir ∧
    ((∃ e, GetString fs "token" = .error e ∧
        RunE w fs = ⟨.returned (some e),
          (resolveID w id).2 ++ [.Debugf "managers: %v" managerAddrs]⟩) ∨
    ∃ token, GetString fs "token" = .ok token ∧
    ((∃ e, w.Select (w.NewManagers managerAddrs) = .error e ∧
        RunE w fs = ⟨.returned (some e), traceToSelect w id managerAddrs⟩) ∨
    ∃ managerAddr, w.Select (w.NewManagers managerAddrs) = .ok managerAddr ∧
    ((∃ e, w.LoadOrCreateAgentSecurityConfig stateDir token managerAddr = .error e ∧
        RunE w fs = ⟨.returned (some e), traceToSelect w id managerAddrs ++
          [.LoadOrCreateAgentSecurityConfig stateDir token managerAddr]⟩) ∨
    ∃ securityConfig,
      w.LoadOrCreateAgentSecurityConfig stateDir token managerAddr = .ok securityConfig ∧
    ((∃ e, w.NewClient engineAddr "" = .error e ∧
        RunE w fs = ⟨.returned (some e), traceToSelect w id managerAddrs ++
          [.LoadOrCreateAgentSecurityConfig stateDir token managerAddr,
           .NewClient engineAddr ""]⟩) ∨
    ∃ client, w.NewClient engineAddr "" = .ok client ∧
    ∃ config, config = Config.mk (resolveID w id).1 hostname (w.NewManagers managerAddrs)
        (w.NewExecutor client) securityConfig ∧
    ((∃ e, w.New config = .error e ∧
        RunE w fs = ⟨.exit 1, traceToSelect w id managerAddrs ++
          [.LoadOrCreateAgentSecurityConfig stateDir token managerAddr,
           .NewClient engineAddr "", .NewExecutor client, .New config, .Fatalln e]⟩) ∨
    ∃ ag, w.New config = .ok ag ∧
    ((∃ e, w.Start ag = some e ∧
        RunE w fs = ⟨.returned (some e), traceToSelect w id managerAddrs ++
          [.LoadOrCreateAgentSecurityConfig stateDir token managerAddr,
           .NewClient engineAddr "", .NewExecutor client, .New config, .WithCancel,
           .Start ag, .cancel]⟩) ∨
     (w.Start ag = none ∧
        RunE w fs = ⟨.returned (w.Err ag), traceToSelect w id managerAddrs ++
          [.LoadOrCreateAgentSecurityConfig stateDir token managerAddr,
           .NewClient engineAddr "", .NewExecutor client, .New config, .WithCancel,
           .Start ag, .Err ag, .cancel]⟩))))))))))) := by
  unfold RunE traceToSelect
  cases h1 : GetString fs "hostname" with
  | error e => simp
  | ok hostname =>
  cases h2 : GetString fs "id" with
  | error e => simp
  | ok id =>
  cases h3 : GetStringSlice fs "manager" with
  | error e => simp
  | ok managerAddrs =>
  cases h4 : GetString fs "engine-addr" with
  | error e => simp
  | ok engineAddr =>
  cases h5 : GetString fs "state-dir" with
  | error e => simp
  | ok stateDir =>
  cases h6 : GetString fs "token" with
  | error e => simp
  | ok token =>
  cases h7 : w.Select (w.NewManagers managerAddrs) with
  | error e => simp [h7]
  | ok managerAddr =>
  cases h8 : w.LoadOrCreateAgentSecurityConfig stateDir token managerAddr with
  | error e => simp [h7, h8]
  | ok securityConfig =>
  cases h9 : w.NewClient engineAddr "" with
  | error e => simp [h7, h8, h9]
  | ok client =>
  cases h10 : w.New (Config.mk (resolveID w id).1 hostname (w.NewManagers managerAddrs)
      (w.NewExecutor client) securityConfig) with
  | error e => simp [h7, h8, h9, h10]
  | ok ag =>
  cases h11 : w.Start ag with
  | some e => simp [h7, h8, h9, h10, h11]
  | none => simp [h7, h8, h9, h10, h11]

/-! ## Failures before the agent is constructed -/

/-- C1: in a run where credential provisioning is called and fails with `e`, or where
construction of the engine client is called and fails with `e`, `RunE` returns exactly `e`,
and neither `agent.New` nor the agent's `Start` is called. -/
theorem provision_or_client_failure_returned (w : World) (fs : FlagSet) (e : Error)
    (h : (∃ stateDir token addr,
            Event.LoadOrCreateAgentSecurityConfig stateDir token addr ∈ (RunE w fs).trace ∧
            w.LoadOrCreateAgentSecurityConfig stateDir token addr = .error e) ∨
         (∃ host version,
            Event.NewClient host version ∈ (RunE w fs).trace ∧
            w.NewClient host version = .error e)) :
    (RunE w fs).outcome = .returned (some e) ∧
    (∀ config, Event.New config ∉ (RunE w fs).trace) ∧
    (∀ ag, Event.Start ag ∉ (RunE w fs).trace) := by
  rcases h with ⟨sd, tok, addr, hmem, hfail⟩ | ⟨host, ver, hmem, hfail⟩ <;>
  rcases RunE_cases w fs with
    ⟨e1, h1, hr⟩ | ⟨hostname, h1, ⟨e1, h2, hr⟩ | ⟨id, h2, ⟨e1, h3, hr⟩ | ⟨addrs, h3,
    ⟨e1, h4, hr⟩ | ⟨engineAddr, h4, ⟨e1, h5, hr⟩ | ⟨stateDir, h5, ⟨e1, h6, hr⟩ | ⟨token, h6,
    ⟨e1, h7, hr⟩ | ⟨managerAddr, h7, ⟨e1, h8, hr⟩ | ⟨sc, h8, ⟨e1, h9, hr⟩ | ⟨client, h9,
    cfg, hc, ⟨e1, h10, hr⟩ | ⟨ag1, h10, ⟨e1, h11, hr⟩ | ⟨h11, hr⟩⟩⟩⟩⟩⟩⟩⟩⟩⟩⟩ <;>
  simp_all [traceToSelect, mem_resolveID_trace]

theorem provision_or_client_failure_returned_witness :
    (RunE provisionFailsWorld (exampleFlags "" "")).outcome =
        .returned (some "x509: certificate request rejected") ∧
    (∀ config, Event.New config ∉ (RunE provisionFailsWorld (exampleFlags "" "")).trace) ∧
    (∀ ag, Event.Start ag ∉ (RunE provisionFailsWorld (exampleFlags "" "")).trace) :=
  provision_or_client_failure_returned provisionFailsWorld (exampleFlags "" "")
    "x509: certificate request rejected"
    (Or.inl ⟨"/tmp/empty", "validtoken", "10.0.0.1:4242", by decide, rfl⟩)

/-- C2: in a run where `managers.Select` is called and fails with `e`, `RunE` returns `e`,
the `Select` call is the last call of the run, and credential provisioning, client
construction, agent construction and agent start are never called. -/
theorem select_failure_returned (w : World) (fs : FlagSet) (m : Managers) (e : Error)
    (hcall : Event.Select m ∈ (RunE w fs).trace) (hfail : w.Select m = .error e) :
    (RunE w fs).outcome = .returned (some e) ∧
    (RunE w fs).trace.getLast? = some (Event.Select m) ∧
    (∀ stateDir token addr,
      Event.LoadOrCreateAgentSecurityConfig stateDir token addr ∉ (RunE w fs).trace) ∧
    (∀ host version, Event.NewClient host version ∉ (RunE w fs).trace) ∧
    (∀ config, Event.New config ∉ (RunE w fs).trace) ∧
    (∀ ag, Event.Start ag ∉ (RunE w fs).trace) := by
  rcases RunE_cases w fs with
    ⟨e1, h1, hr⟩ | ⟨hostname, h1, ⟨e1, h2, hr⟩ | ⟨id, h2, ⟨e1, h3, hr⟩ | ⟨addrs, h3,
    ⟨e1, h4, hr⟩ | ⟨engineAddr, h4, ⟨e1, h5, hr⟩ | ⟨stateDir, h5, ⟨e1, h6, hr⟩ | ⟨token, h6,
    ⟨e1, h7, hr⟩ | ⟨managerAddr, h7, ⟨e1, h8, hr⟩ | ⟨sc, h8, ⟨e1, h9, hr⟩ | ⟨client, h9,
    cfg, hc, ⟨e1, h10, hr⟩ | ⟨ag1, h10, ⟨e1, h11, hr⟩ | ⟨h11, hr⟩⟩⟩⟩⟩⟩⟩⟩⟩⟩⟩
  all_goals simp_all [traceToSelect, mem_resolveID_trace, List.getLast?_append]

theorem select_failure_returned_witness :
    GetStringSlice noManagerFlags "manager" = .ok [] ∧
    (RunE okWorld noManagerFlags).outcome = .returned (some "no managers") ∧
    (RunE okWorld noManagerFlags).trace.getLast? = some (Event.Select ⟨0⟩) ∧
    (∀ stateDir token addr,
      Event.LoadOrCreateAgentSecurityConfig stateDir token addr ∉
        (RunE okWorld noManagerFlags).trace) ∧
    (∀ host version, Event.NewClient host version ∉ (RunE okWorld noManagerFlags).trace) ∧
    (∀ config, Event.New config ∉ (RunE okWorld noManagerFlags).trace) ∧
    (∀ ag, Event.Start ag ∉ (RunE okWorld noManagerFlags).trace) :=
  ⟨rfl, select_failure_returned okWorld noManagerFlags ⟨0⟩ "no managers" (by decide) rfl⟩

/-! ## Identity -/

/-- C3: when the id flag is not the empty string the generator `identity.NewID` is not
called in the run; and for every non-empty id the flag holds, identity resolution returns
that id unchanged without any call, and the configuration handed to `agent.New` carries
exactly that id. -/
theorem supplied_id_kept (w : World) (fs : FlagSet) (h : GetString fs "id" ≠ .ok "") :
    Event.NewID ∉ (RunE w fs).trace ∧
    ∀ id, GetString fs "id" = .ok id →
      resolveID w id = (id, []) ∧
      ∀ config, Event.New config ∈ (RunE w fs).trace → config.ID = id := by
  have hne : ∀ id, GetString fs "id" = .ok id → id ≠ "" := by
    intro id hid hz
    subst hz
    exact h hid
  rcases RunE_cases w fs with
    ⟨e1, h1, hr⟩ | ⟨hostname, h1, ⟨e1, h2, hr⟩ | ⟨id, h2, ⟨e1, h3, hr⟩ | ⟨addrs, h3,
    ⟨e1, h4, hr⟩ | ⟨engineAddr, h4, ⟨e1, h5, hr⟩ | ⟨stateDir, h5, ⟨e1, h6, hr⟩ | ⟨token, h6,
    ⟨e1, h7, hr⟩ | ⟨managerAddr, h7, ⟨e1, h8, hr⟩ | ⟨sc, h8, ⟨e1, h9, hr⟩ | ⟨client, h9,
    cfg, hc, ⟨e1, h10, hr⟩ | ⟨ag1, h10, ⟨e1, h11, hr⟩ | ⟨h11, hr⟩⟩⟩⟩⟩⟩⟩⟩⟩⟩⟩
  all_goals simp_all [traceToSelect, mem_resolveID_trace, resolveID]

theorem supplied_id_kept_witness :
    GetString (exampleFlags "node-7" "") "id" = .ok "node-7" ∧
    Event.NewID ∉ (RunE okWorld (exampleFlags "node-7" "")).trace ∧
    resolveID okWorld "node-7" = ("node-7", []) ∧
    ∀ config, Event.New config ∈ (RunE okWorld (exampleFlags "node-7" "")).trace →
      config.ID = "node-7" :=
  have h := supplied_id_kept okWorld (exampleFlags "node-7" "")
    (fun h => absurd (Except.ok.inj h) (by decide))
  ⟨rfl, h.1, h.2 "node-7" rfl⟩

/-! ## Credential provisioning -/

/-- C4: in every run credential provisioning is called at most once, and a call has as
arguments exactly the value of the state-dir flag, the value of the token flag, and the
address that `managers.Select` returned for the pool built from the manager flag. -/
theorem provision_once_with_selected_address (w : World) (fs : FlagSet) :
    List.countP Event.isProvision (RunE w fs).trace ≤ 1 ∧
    ∀ stateDir token addr,
      Event.LoadOrCreateAgentSecurityConfig stateDir token addr ∈ (RunE w fs).trace →
      GetString fs "state-dir" = .ok stateDir ∧
      GetString fs "token" = .ok token ∧
      ∃ managerAddrs, GetStringSlice fs "manager" = .ok managerAddrs ∧
        Event.Select (w.NewManagers managerAddrs) ∈ (RunE w fs).trace ∧
        w.Select (w.NewManagers managerAddrs) = .ok addr := by
  rcases RunE_cases w fs with
    ⟨e1, h1, hr⟩ | ⟨hostname, h1, ⟨e1, h2, hr⟩ | ⟨id, h2, ⟨e1, h3, hr⟩ | ⟨addrs, h3,
    ⟨e1, h4, hr⟩ | ⟨engineAddr, h4, ⟨e1, h5, hr⟩ | ⟨stateDir, h5, ⟨e1, h6, hr⟩ | ⟨token, h6,
    ⟨e1, h7, hr⟩ | ⟨managerAddr, h7, ⟨e1, h8, hr⟩ | ⟨sc, h8, ⟨e1, h9, hr⟩ | ⟨client, h9,
    cfg, hc, ⟨e1, h10, hr⟩ | ⟨ag1, h10, ⟨e1, h11, hr⟩ | ⟨h11, hr⟩⟩⟩⟩⟩⟩⟩⟩⟩⟩⟩
  all_goals
    simp_all [traceToSelect, mem_resolveID_trace, List.countP_cons, Event.isProvision,
      countP_resolveID_trace]

theorem provision_once_with_selected_address_witness :
    Event.LoadOrCreateAgentSecurityConfig "/tmp/empty" "validtoken" "10.0.0.1:4242" ∈
      (RunE okWorld (exampleFlags "" "")).trace ∧
    List.countP Event.isProvision (RunE okWorld (exampleFlags "" "")).trace ≤ 1 ∧
    GetString (exampleFlags "" "") "state-dir" = .ok "/tmp/empty" ∧
    GetString (exampleFlags "" "") "token" = .ok "validtoken" ∧
    ∃ managerAddrs, GetStringSlice (exampleFlags "" "") "manager" = .ok managerAddrs ∧
      Event.Select (okWorld.NewManagers managerAddrs) ∈
        (RunE okWorld (exampleFlags "" "")).trace ∧
      okWorld.Select (okWorld.NewManagers managerAddrs) = .ok "10.0.0.1:4242" :=
  have h := provision_once_with_selected_address okWorld (exampleFlags "" "")
  ⟨by decide, h.1, h.2 "/tmp/empty" "validtoken" "10.0.0.1:4242" (by decide)⟩

/-! ## Agent construction and start -/

/-- What `RunE` does when `agent.New` is called and fails with `e`: the error is logged with
`Fatalln`, which is the last call of the run, the process exits with status 1, `RunE` returns
nothing to its caller, and the agent is not started. -/
theorem agent_New_failure_exits (w : World) (fs : FlagSet) (config : Config) (e : Error)
    (hcall : Event.New config ∈ (RunE w fs).trace) (hfail : w.New config = .error e) :
    (RunE w fs).outcome = .exit 1 ∧
    (∀ r, (RunE w fs).outcome ≠ .returned r) ∧
    (RunE w fs).trace.getLast? = some (Event.Fatalln e) ∧
    (∀ ag, Event.Start ag ∉ (RunE w fs).trace) := by
  rcases RunE_cases w fs with
    ⟨e1, h1, hr⟩ | ⟨hostname, h1, ⟨e1, h2, hr⟩ | ⟨id, h2, ⟨e1, h3, hr⟩ | ⟨addrs, h3,
    ⟨e1, h4, hr⟩ | ⟨engineAddr, h4, ⟨e1, h5, hr⟩ | ⟨stateDir, h5, ⟨e1, h6, hr⟩ | ⟨token, h6,
    ⟨e1, h7, hr⟩ | ⟨managerAddr, h7, ⟨e1, h8, hr⟩ | ⟨sc, h8, ⟨e1, h9, hr⟩ | ⟨client, h9,
    cfg, hc, ⟨e1, h10, hr⟩ | ⟨ag1, h10, ⟨e1, h11, hr⟩ | ⟨h11, hr⟩⟩⟩⟩⟩⟩⟩⟩⟩⟩⟩
  all_goals simp_all [traceToSelect, mem_resolveID_trace, List.getLast?_append]

/-- C5: with every earlier step succeeding and `agent.New` failing with
"config: invalid", the run does not return that error to its caller: the error is passed
to `Fatalln` and the process exits with status 1.  The agent is not started. -/
theorem agent_New_failure_not_returned :
    (∃ config, Event.New config ∈ (RunE newFailsWorld (exampleFlags "" "")).trace ∧
      newFailsWorld.New config = .error "config: invalid") ∧
    (RunE newFailsWorld (exampleFlags "" "")).outcome ≠ .returned (some "config: invalid") ∧
    (RunE newFailsWorld (exampleFlags "" "")).outcome = .exit 1 ∧
    (RunE newFailsWorld (exampleFlags "" "")).trace.getLast? =
      some (Event.Fatalln "config: invalid") ∧
    (∀ ag, Event.Start ag ∉ (RunE newFailsWorld (exampleFlags "" "")).trace) := by
  refine ⟨⟨⟨"generated-id", "", ⟨1⟩, ⟨3⟩, ⟨7⟩⟩, by decide, rfl⟩, by decide, rfl, rfl, ?_⟩
  intro ag
  simp [RunE, exampleFlags, newFailsWorld, okWorld, GetString, GetStringSlice, Lookup,
    resolveID]

/-- C6: when the six flag reads, address selection, credential provisioning, client
construction and agent construction all succeed: if `Start` fails with `e` the run returns
`e` and `ag.Err` is never called; if `Start` succeeds the run returns exactly what `ag.Err()`
reports, nil included. -/
theorem start_and_terminal_error (w : World) (fs : FlagSet)
    (hostname id engineAddr stateDir token managerAddr : String) (managerAddrs : List String)
    (securityConfig : SecurityConfig) (client : Client) (ag : Agent)
    (hhost : GetString fs "hostname" = .ok hostname)
    (hid : GetString fs "id" = .ok id)
    (hman : GetStringSlice fs "manager" = .ok managerAddrs)
    (heng : GetString fs "engine-addr" = .ok engineAddr)
    (hdir : GetString fs "state-dir" = .ok stateDir)
    (htok : GetString fs "token" = .ok token)
    (hsel : w.Select (w.NewManagers managerAddrs) = .ok managerAddr)
    (hsec : w.LoadOrCreateAgentSecurityConfig stateDir token managerAddr = .ok securityConfig)
    (hcli : w.NewClient engineAddr "" = .ok client)
    (hnew : w.New (Config.mk (if id = "" then w.NewID else id) hostname
        (w.NewManagers managerAddrs) (w.NewExecutor client) securityConfig) = .ok ag) :
    (∀ e, w.Start ag = some e →
      (RunE w fs).outcome = .returned (some e) ∧ ∀ a, Event.Err a ∉ (RunE w fs).trace) ∧
    (w.Start ag = none →
      (RunE w fs).outcome = .returned (w.Err ag) ∧ Event.Err ag ∈ (RunE w fs).trace) := by
  rw [← resolveID_fst] at hnew
  rcases RunE_cases w fs with
    ⟨e1, h1, hr⟩ | ⟨hostname, h1, ⟨e1, h2, hr⟩ | ⟨id, h2, ⟨e1, h3, hr⟩ | ⟨addrs, h3,
    ⟨e1, h4, hr⟩ | ⟨engineAddr, h4, ⟨e1, h5, hr⟩ | ⟨stateDir, h5, ⟨e1, h6, hr⟩ | ⟨token, h6,
    ⟨e1, h7, hr⟩ | ⟨managerAddr, h7, ⟨e1, h8, hr⟩ | ⟨sc, h8, ⟨e1, h9, hr⟩ | ⟨client, h9,
    cfg, hc, ⟨e1, h10, hr⟩ | ⟨ag1, h10, ⟨e1, h11, hr⟩ | ⟨h11, hr⟩⟩⟩⟩⟩⟩⟩⟩⟩⟩⟩
  all_goals simp_all [traceToSelect, mem_resolveID_trace]

theorem start_and_terminal_error_witness :
    ((∀ e, startFailsWorld.Start ⟨1⟩ = some e →
      (RunE startFailsWorld (exampleFlags "" "")).outcome = .returned (some e) ∧
      ∀ a, Event.Err a ∉ (RunE startFailsWorld (exampleFlags "" "")).trace) ∧
     (startFailsWorld.Start ⟨1⟩ = none →
      (RunE startFailsWorld (exampleFlags "" "")).outcome =
        .returned (startFailsWorld.Err ⟨1⟩) ∧
      Event.Err ⟨1⟩ ∈ (RunE startFailsWorld (exampleFlags "" "")).trace)) ∧
    startFailsWorld.Start ⟨1⟩ = some "agent: already started" :=
  ⟨start_and_terminal_error startFailsWorld (exampleFlags "" "") "" ""
    "unix:///var/run/docker.sock" "/tmp/empty" "validtoken" "10.0.0.1:4242" ["10.0.0.1:4242"]
    ⟨7⟩ ⟨3⟩ ⟨1⟩ rfl rfl rfl rfl rfl rfl rfl rfl rfl rfl, rfl⟩

/-- C7: in a run that calls `agent.New`, the call happens exactly once and its
configuration has ID = the resolved identity (the id flag, or the generated id when the flag
is empty), Hostname = the hostname flag, Managers = the pool built from the manager flag,
which is the pool `Select` was called on, Executor = the executor wrapping the client built
from the engine-addr flag, SecurityConfig = the value credential provisioning returned. -/
theorem config_fields (w : World) (fs : FlagSet) (config : Config)
    (h : Event.New config ∈ (RunE w fs).trace) :
    List.countP Event.isNew (RunE w fs).trace = 1 ∧
    ∃ hostname id managerAddrs engineAddr stateDir token managerAddr client,
      GetString fs "hostname" = .ok hostname ∧
      GetString fs "id" = .ok id ∧
      GetStringSlice fs "manager" = .ok managerAddrs ∧
      GetString fs "engine-addr" = .ok engineAddr ∧
      GetString fs "state-dir" = .ok stateDir ∧
      GetString fs "token" = .ok token ∧
      config.ID = (if id = "" then w.NewID else id) ∧
      config.Hostname = hostname ∧
      config.Managers = w.NewManagers managerAddrs ∧
      Event.Select config.Managers ∈ (RunE w fs).trace ∧
      w.Select config.Managers = .ok managerAddr ∧
      w.NewClient engineAddr "" = .ok client ∧
      config.Executor = w.NewExecutor client ∧
      w.LoadOrCreateAgentSecurityConfig stateDir token managerAddr =
        .ok config.SecurityConfig := by
  rcases RunE_cases w fs with
    ⟨e1, h1, hr⟩ | ⟨hostname, h1, ⟨e1, h2, hr⟩ | ⟨id, h2, ⟨e1, h3, hr⟩ | ⟨addrs, h3,
    ⟨e1, h4, hr⟩ | ⟨engineAddr, h4, ⟨e1, h5, hr⟩ | ⟨stateDir, h5, ⟨e1, h6, hr⟩ | ⟨token, h6,
    ⟨e1, h7, hr⟩ | ⟨managerAddr, h7, ⟨e1, h8, hr⟩ | ⟨sc, h8, ⟨e1, h9, hr⟩ | ⟨client, h9,
    cfg, hc, ⟨e1, h10, hr⟩ | ⟨ag1, h10, ⟨e1, h11, hr⟩ | ⟨h11, hr⟩⟩⟩⟩⟩⟩⟩⟩⟩⟩⟩
  all_goals
    simp_all [traceToSelect, mem_resolveID_trace, List.countP_cons, Event.isNew,
      countP_resolveID_trace, resolveID_fst]

theorem config_fields_witness :
    List.countP Event.isNew (RunE okWorld (exampleFlags "node-7" "worker-a")).trace = 1 ∧
    ∃ hostname id managerAddrs engineAddr stateDir token managerAddr client,
      GetString (exampleFlags "node-7" "worker-a") "hostname" = .ok hostname ∧
      GetString (exampleFlags "node-7" "worker-a") "id" = .ok id ∧
      GetStringSlice (exampleFlags "node-7" "worker-a") "manager" = .ok managerAddrs ∧
      GetString (exampleFlags "node-7" "worker-a") "engine-addr" = .ok engineAddr ∧
      GetString (exampleFlags "node-7" "worker-a") "state-dir" = .ok stateDir ∧
      GetString (exampleFlags "node-7" "worker-a") "token" = .ok token ∧
      (Config.mk "node-7" "worker-a" ⟨1⟩ ⟨3⟩ ⟨7⟩).ID = (if id = "" then okWorld.NewID else id) ∧
      (Config.mk "node-7" "worker-a" ⟨1⟩ ⟨3⟩ ⟨7⟩).Hostname = hostname ∧
      (Config.mk "node-7" "worker-a" ⟨1⟩ ⟨3⟩ ⟨7⟩).Managers = okWorld.NewManagers managerAddrs ∧
      Event.Select (Config.mk "node-7" "worker-a" ⟨1⟩ ⟨3⟩ ⟨7⟩).Managers ∈
        (RunE okWorld (exampleFlags "node-7" "worker-a")).trace ∧
      okWorld.Select (Config.mk "node-7" "worker-a" ⟨1⟩ ⟨3⟩ ⟨7⟩).Managers = .ok managerAddr ∧
      okWorld.NewClient engineAddr "" = .ok client ∧
      (Config.mk "node-7" "worker-a" ⟨1⟩ ⟨3⟩ ⟨7⟩).Executor = okWorld.NewExecutor client ∧
      okWorld.LoadOrCreateAgentSecurityConfig stateDir token managerAddr =
        .ok (Config.mk "node-7" "worker-a" ⟨1⟩ ⟨3⟩ ⟨7⟩).SecurityConfig :=
  config_fields okWorld (exampleFlags "node-7" "worker-a")
    (Config.mk "node-7" "worker-a" ⟨1⟩ ⟨3⟩ ⟨7⟩) (by decide)

/-! ## Flag reads -/

/-- C8: when the read of one of the six flags fails, the run returns the error of the first
failing read (in the order hostname, id, manager, engine-addr, state-dir, token), and address
selection, credential provisioning, client construction, agent construction and agent start
are never called. -/
theorem flag_failure_returned (w : World) (fs : FlagSet)
    (h : ∃ name ∈ flagsRead, readError fs name ≠ none) :
    (∃ e, (flagsRead.filterMap (readError fs)).head? = some e ∧
      (RunE w fs).outcome = .returned (some e)) ∧
    (∀ m, Event.Select m ∉ (RunE w fs).trace) ∧
    (∀ stateDir token addr,
      Event.LoadOrCreateAgentSecurityConfig stateDir token addr ∉ (RunE w fs).trace) ∧
    (∀ host version, Event.NewClient host version ∉ (RunE w fs).trace) ∧
    (∀ config, Event.New config ∉ (RunE w fs).trace) ∧
    (∀ ag, Event.Start ag ∉ (RunE w fs).trace) := by
  rcases RunE_cases w fs with
    ⟨e1, h1, hr⟩ | ⟨hostname, h1, ⟨e1, h2, hr⟩ | ⟨id, h2, ⟨e1, h3, hr⟩ | ⟨addrs, h3,
    ⟨e1, h4, hr⟩ | ⟨engineAddr, h4, ⟨e1, h5, hr⟩ | ⟨stateDir, h5, ⟨e1, h6, hr⟩ | ⟨token, h6,
    ⟨e1, h7, hr⟩ | ⟨managerAddr, h7, ⟨e1, h8, hr⟩ | ⟨sc, h8, ⟨e1, h9, hr⟩ | ⟨client, h9,
    cfg, hc, ⟨e1, h10, hr⟩ | ⟨ag1, h10, ⟨e1, h11, hr⟩ | ⟨h11, hr⟩⟩⟩⟩⟩⟩⟩⟩⟩⟩⟩
  all_goals simp_all [traceToSelect, mem_resolveID_trace, flagsRead, readError]

theorem flag_failure_returned_witness :
    readError init "state-dir" = some "flag accessed but not defined: state-dir" ∧
    (∃ e, (flagsRead.filterMap (readError init)).head? = some e ∧
      (RunE okWorld init).outcome = .returned (some e)) ∧
    (∀ m, Event.Select m ∉ (RunE okWorld init).trace) ∧
    (∀ stateDir token addr,
      Event.LoadOrCreateAgentSecurityConfig stateDir token addr ∉ (RunE okWorld init).trace) ∧
    (∀ host version, Event.NewClient host version ∉ (RunE okWorld init).trace) ∧
    (∀ config, Event.New config ∉ (RunE okWorld init).trace) ∧
    (∀ ag, Event.Start ag ∉ (RunE okWorld init).trace) :=
  ⟨rfl, flag_failure_returned okWorld init
    ⟨"state-dir", by decide, fun h => Option.noConfusion h⟩⟩

/-! ## Registered flags -/

/-- C9, as stated, fails: `state-dir` is read by `RunE` but is not among the flags `init`
registers, so with exactly the flag set of `init` the read fails as undefined and the run
returns that error. -/
theorem init_lacks_state_dir :
    "state-dir" ∈ flagsRead ∧
    Lookup init "state-dir" = none ∧
    GetString init "state-dir" = .error "flag accessed but not defined: state-dir" ∧
    (RunE okWorld init).outcome =
      .returned (some "flag accessed but not defined: state-dir") := by
  refine ⟨by decide, rfl, rfl, rfl⟩

/-- C9, amended: `init` registers exactly four flags, in this order: id (string, no
shorthand, default ""), engine-addr (string, no shorthand, default
"unix:///var/run/docker.sock"), hostname (string, no shorthand, default "") and manager
(string slice, shorthand m, default the single entry "localhost:4242"); with the flag set of
`init` the reads of these four succeed with those defaults.  Of the six names `RunE` reads,
exactly state-dir and token are not registered by `init`: with only the flag set of `init`
every run returns the undefined-flag error of state-dir, with state-dir added it returns the
undefined-flag error of token, and for any flags added after those of `init` the reads of
state-dir and token give what the added flags give. -/
theorem init_registers_four :
    init.map (fun f => (f.name, f.shorthand, f.value)) =
      [("id", "", .string ""),
       ("engine-addr", "", .string "unix:///var/run/docker.sock"),
       ("hostname", "", .string ""),
       ("manager", "m", .stringSlice ["localhost:4242"])] ∧
    GetString init "id" = .ok "" ∧
    GetString init "engine-addr" = .ok "unix:///var/run/docker.sock" ∧
    GetString init "hostname" = .ok "" ∧
    GetStringSlice init "manager" = .ok ["localhost:4242"] ∧
    (∀ name ∈ flagsRead,
      (Lookup init name).isSome ↔ (name ≠ "state-dir" ∧ name ≠ "token")) ∧
    (∀ w : World, (RunE w init).outcome =
      .returned (some "flag accessed but not defined: state-dir")) ∧
    (∀ (w : World) (dir : String),
      (RunE w (init.StringFlag "state-dir" dir "State directory")).outcome =
        .returned (some "flag accessed but not defined: token")) ∧
    (∀ extra : FlagSet,
      GetString (init ++ extra) "state-dir" = GetString extra "state-dir" ∧
      GetString (init ++ extra) "token" = GetString extra "token") := by
  refine ⟨rfl, rfl, rfl, rfl, rfl, ?_, ?_, ?_, ?_⟩
  · intro name hname
    simp only [flagsRead, List.mem_cons, List.mem_singleton, List.not_mem_nil, or_false] at hname
    rcases hname with rfl | rfl | rfl | rfl | rfl | rfl <;> decide
  · intro w
    rfl
  · intro w dir
    rfl
  · intro extra
    simp [GetString, Lookup, init, FlagSet.StringFlag, FlagSet.StringSliceP]

/-! ## Hostname -/

/-- C10, as stated, fails: with the hostname flag empty the configuration handed to
`agent.New` has the empty string as Hostname. -/
theorem empty_hostname_stays_empty :
    GetString (exampleFlags "" "") "hostname" = .ok "" ∧
    ∃ config, Event.New config ∈ (RunE okWorld (exampleFlags "" "")).trace ∧
      config.Hostname = "" :=
  ⟨rfl, Config.mk "generated-id" "" ⟨1⟩ ⟨3⟩ ⟨7⟩, by decide, rfl⟩

/-- C10, amended: in every run that calls `agent.New`, the Hostname of the configuration is
the value of the hostname flag verbatim, whether that value is empty or not. -/
theorem hostname_verbatim (w : World) (fs : FlagSet) (config : Config) (hostname : String)
    (hflag : GetString fs "hostname" = .ok hostname)
    (hcall : Event.New config ∈ (RunE w fs).trace) :
    config.Hostname = hostname := by
  rcases RunE_cases w fs with
    ⟨e1, h1, hr⟩ | ⟨hostname, h1, ⟨e1, h2, hr⟩ | ⟨id, h2, ⟨e1, h3, hr⟩ | ⟨addrs, h3,
    ⟨e1, h4, hr⟩ | ⟨engineAddr, h4, ⟨e1, h5, hr⟩ | ⟨stateDir, h5, ⟨e1, h6, hr⟩ | ⟨token, h6,
    ⟨e1, h7, hr⟩ | ⟨managerAddr, h7, ⟨e1, h8, hr⟩ | ⟨sc, h8, ⟨e1, h9, hr⟩ | ⟨client, h9,
    cfg, hc, ⟨e1, h10, hr⟩ | ⟨ag1, h10, ⟨e1, h11, hr⟩ | ⟨h11, hr⟩⟩⟩⟩⟩⟩⟩⟩⟩⟩⟩
  all_goals simp_all [traceToSelect, mem_resolveID_trace]

theorem hostname_verbatim_witness :
    (GetString (exampleFlags "node-7" "worker-a") "hostname" = .ok "worker-a" ∧
     Event.New (Config.mk "node-7" "worker-a" ⟨1⟩ ⟨3⟩ ⟨7⟩) ∈
       (RunE okWorld (exampleFlags "node-7" "worker-a")).trace ∧
     (Config.mk "node-7" "worker-a" ⟨1⟩ ⟨3⟩ ⟨7⟩).Hostname = "worker-a") ∧
    (GetString (exampleFlags "node-7" "") "hostname" = .ok "" ∧
     Event.New (Config.mk "node-7" "" ⟨1⟩ ⟨3⟩ ⟨7⟩) ∈
       (RunE okWorld (exampleFlags "node-7" "")).trace ∧
     (Config.mk "node-7" "" ⟨1⟩ ⟨3⟩ ⟨7⟩).Hostname = "") :=
  ⟨⟨rfl, by decide,
    hostname_verbatim okWorld (exampleFlags "node-7" "worker-a")
      (Config.mk "node-7" "worker-a" ⟨1⟩ ⟨3⟩ ⟨7⟩) "worker-a" rfl (by decide)⟩,
   ⟨rfl, by decide,
    hostname_verbatim okWorld (exampleFlags "node-7" "")
      (Config.mk "node-7" "" ⟨1⟩ ⟨3⟩ ⟨7⟩) "" rfl (by decide)⟩⟩

end Swarmd
